import Mathlib

/-!
Shallow embedding of `yavdr_pulse_dbusctl/main.py` (class `PulseDBusControl`).

The audio server's observable state (cards, sinks, sink-inputs, the default
sink name) is a `PulseState`.  Calls into the `pulsectl` connection that can
fail at the server or connection level are driven by a fault oracle `Faults`;
a Python exception that escapes a method is an `Except.error`, a caught one
follows the source's `except` handler.  Each mutating primitive the code
invokes on the connection is recorded in a `Cmd` trace so that theorems can
speak about which server commands were issued and in what order.
-/

set_option autoImplicit false

namespace YavdrPulse

/-- A card profile as reported by the server (`pulsectl` profile object). -/
structure Profile where
  name : String
  description : String
  available : Bool
  n_sinks : Nat
  deriving DecidableEq, Repr

/-- A card as reported by the server: name, property list (`proplist`),
full profile list and the active profile. -/
structure Card where
  name : String
  proplist : List (String × String)
  profile_list : List Profile
  profile_active : Profile
  deriving DecidableEq, Repr

/-- An active port of a sink, carrying its availability state string. -/
structure Port where
  available_state : String
  deriving DecidableEq, Repr

/-- A sink object as reported by the server (`pulsectl` sink object). -/
structure PulseSink where
  name : String
  description : String
  index : Nat
  card : Nat
  mute : Bool
  channel_count : Nat
  volume_values : List Rat
  port_active : Option Port
  deriving DecidableEq, Repr

/-- A sink-input (stream): its index and the index of its current sink. -/
structure Stream where
  index : Nat
  sink : Nat
  deriving DecidableEq, Repr

/-- The audio server's observable state behind the `pulsectl` connection. -/
structure PulseState where
  cards : List Card
  sinks : List PulseSink
  sink_inputs : List Stream
  default_sink_name : String
  deriving DecidableEq, Repr

/-- Exception classes that can escape a `pulsectl` call in the source:
lookup misses (`PulseIndexError` / `StopIteration` / `KeyError`),
connection faults, and rejected commands. -/
inductive PulseErr where
  | notFound
  | connFault
  | opFailed
  | keyError
  deriving DecidableEq, Repr

/-- A mutating command issued to the server connection. -/
inductive Cmd where
  | setDefault (sinkName : String)
  | move (streamIdx : Nat) (targetIdx : Nat)
  | profileSet (cardName : String) (profileName : String)
  deriving DecidableEq, Repr

/-- Whether a command is a stream-move command. -/
def Cmd.isMove : Cmd → Bool
  | .move _ _ => true
  | _ => false

/-- Fault oracle: which connection calls raise during this invocation.
`move_fault` is per stream index. -/
structure Faults where
  card_list_fault : Bool
  sinks_query_fault : Bool
  get_sink_fault : Bool
  default_set_fault : Bool
  input_list_fault : Bool
  move_fault : Nat → Bool
  get_card_fault : Bool
  profile_set_fault : Bool

/-- The oracle under which every connection call succeeds. -/
def noFaults : Faults :=
  ⟨false, false, false, false, false, fun _ => false, false, false⟩

/-- Python `proplist[key]` read: `some` value or a `KeyError` (`none`). -/
def lookupProp (props : List (String × String)) (key : String) : Option String :=
  (props.find? (fun kv => kv.1 == key)).map (fun kv => kv.2)

/-- Python `s.startswith(pre)`: `pre`'s characters are a prefix of `s`'s. -/
def strStartsWith (s pre : String) : Bool :=
  pre.data.isPrefixOf s.data

/-- The source's profile filter (line 43):
`p.available and p.n_sinks > 0 and p.name.startswith('output:')`. -/
def profileSelected (p : Profile) : Bool :=
  p.available && decide (0 < p.n_sinks) && strStartsWith p.name "output:"

/-- The inner loop of `list_output_profiles` (lines 41-44): appends
`(p.name, p.description)` for every selected profile, in order. -/
def collectProfiles : List Profile → List (String × String)
  | [] => []
  | p :: ps =>
    if profileSelected p then (p.name, p.description) :: collectProfiles ps
    else collectProfiles ps

/-- One element of the `list_output_profiles` result (lines 45-52). -/
structure CardEntry where
  card_name : String
  card_description : String
  profiles : List (String × String)
  active_profile_name : String
  deriving DecidableEq, Repr

/-- The outer loop of `list_output_profiles` (lines 40-52).  The
`proplist['device.description']` read (line 48) raises `KeyError` when the
key is absent, aborting the whole call with no partial result. -/
def buildCardEntries : List Card → Except PulseErr (List CardEntry)
  | [] => .ok []
  | c :: cs =>
    match lookupProp c.proplist "device.description" with
    | none => .error .keyError
    | some d =>
      match buildCardEntries cs with
      | .error e => .error e
      | .ok rest => .ok (⟨c.name, d, collectProfiles c.profile_list, c.profile_active.name⟩ :: rest)

/-- `list_output_profiles` (lines 37-53): `card_list()` may raise a
connection fault; otherwise the per-card projection runs with no handler. -/
def list_output_profiles (f : Faults) (st : PulseState) :
    Except PulseErr (List CardEntry) :=
  if f.card_list_fault then .error .connFault
  else buildCardEntries st.cards

/-- The wire `Sink` record built at lines 74-88 of the source, from a server
sink object and the default sink name read once at line 70. -/
structure Sink where
  name : String
  description : String
  index : Nat
  card : Nat
  is_muted : Bool
  channel_count : Nat
  volume_values : List Rat
  port_active : String
  is_default_sink : Bool
  deriving DecidableEq, Repr

/-- Projection of one server sink into the wire record: the port state falls
back to the sentinel "unknown" when no port is active (lines 83-85), and the
default flag is a name comparison against the snapshot default (line 86). -/
def mkSinkRecord (d : String) (s : PulseSink) : Sink :=
  ⟨s.name, s.description, s.index, s.card, s.mute, s.channel_count,
    s.volume_values,
    (match s.port_active with
     | some p => p.available_state
     | none => "unknown"),
    s.name == d⟩

/-- `list_sinks` (lines 68-91): read the default sink name once, then map
every sink into its wire record; a connection fault propagates. -/
def list_sinks (f : Faults) (st : PulseState) :
    Except PulseErr (List Sink × String) :=
  if f.sinks_query_fault then .error .connFault
  else .ok (st.sinks.map (mkSinkRecord st.default_sink_name), st.default_sink_name)

/-- `pulse.get_card_by_name` resolution: first card with the given name. -/
def findCard (cards : List Card) (cardName : String) : Option Card :=
  cards.find? (fun c => c.name == cardName)

/-- The `next(p for p in card.profile_list if p.name == profile_name)`
resolution at line 60: first matching profile of the FULL profile list. -/
def findProfile (ps : List Profile) (profileName : String) : Option Profile :=
  ps.find? (fun p => p.name == profileName)

/-- Server effect of `card_profile_set`: the named card's active profile
becomes `p`. -/
def setActiveProfile (st : PulseState) (cardName : String) (p : Profile) : PulseState :=
  ⟨st.cards.map (fun c =>
      if c.name == cardName then ⟨c.name, c.proplist, c.profile_list, p⟩ else c),
    st.sinks, st.sink_inputs, st.default_sink_name⟩

/-- `set_profile` (lines 58-62).  No `try` block anywhere: a failed card
lookup, a failed profile lookup, or a rejected `card_profile_set` all raise
out of the method.  On success it returns `True`. -/
def set_profile (f : Faults) (st : PulseState) (card_name : String)
    (profile_name : String) :
    Except (PulseErr × List Cmd) (PulseState × Bool × List Cmd) :=
  if f.get_card_fault then .error (.connFault, [])
  else
    match findCard st.cards card_name with
    | none => .error (.notFound, [])
    | some card =>
      match findProfile card.profile_list profile_name with
      | none => .error (.notFound, [])
      | some profile =>
        if f.profile_set_fault then
          .error (.connFault, [Cmd.profileSet card.name profile.name])
        else
          .ok (setActiveProfile st card.name profile, true,
            [Cmd.profileSet card.name profile.name])

/-- `pulse.get_sink_by_name` resolution: first sink with the given name. -/
def findSink (sinks : List PulseSink) (sinkName : String) : Option PulseSink :=
  sinks.find? (fun s => s.name == sinkName)

/-- Server effect of `sink_input_move(streamIdx, targetIdx)`: every
sink-input with that index now targets `targetIdx`. -/
def sink_input_move (st : PulseState) (streamIdx : Nat) (targetIdx : Nat) : PulseState :=
  ⟨st.cards, st.sinks,
    st.sink_inputs.map (fun t =>
      if t.index == streamIdx then ⟨t.index, targetIdx⟩ else t),
    st.default_sink_name⟩

/-- The `for stream in ...: self.pulse.sink_input_move(...)` loop at lines
111-112: iterates over the snapshot taken by `sink_input_list()`, issuing one
move per stream; there is no handler, so a rejected move raises out with the
moves made so far applied. -/
def moveStreams (f : Faults) (target : Nat) :
    PulseState → List Stream → List Cmd →
    Except (PulseErr × PulseState × List Cmd) (PulseState × List Cmd)
  | st, [], tr => .ok (st, tr)
  | st, t :: rest, tr =>
    if f.move_fault t.index then
      .error (.opFailed, st, tr ++ [Cmd.move t.index target])
    else
      moveStreams f target (sink_input_move st t.index target) rest
        (tr ++ [Cmd.move t.index target])

/-- `set_default_sink` (lines 98-113).  The two `try/except Exception`
blocks catch EVERY exception of resolution (lines 99-103) and of
`sink_default_set` (lines 104-108), returning `False`; the enumeration and
move loop (lines 111-112) has no handler, so its exceptions raise out.
On full success the method returns `True`. -/
def set_default_sink (f : Faults) (st : PulseState) (sink_name : String) :
    Except (PulseErr × PulseState × List Cmd) (PulseState × Bool × List Cmd) :=
  if f.get_sink_fault then .ok (st, false, [])
  else
    match findSink st.sinks sink_name with
    | none => .ok (st, false, [])
    | some target =>
      if f.default_set_fault then .ok (st, false, [Cmd.setDefault target.name])
      else
        let st1 : PulseState := ⟨st.cards, st.sinks, st.sink_inputs, target.name⟩
        if f.input_list_fault then
          .error (.connFault, st1, [Cmd.setDefault target.name])
        else
          match moveStreams f target.index st1 st1.sink_inputs
              [Cmd.setDefault target.name] with
          | .error e => .error e
          | .ok (st2, tr) => .ok (st2, true, tr)

/-! ### Concrete fixtures -/

/-- A sink named "A" at index 0 with no active port. -/
def sinkA : PulseSink := ⟨"A", "Sink A", 0, 0, false, 2, [], none⟩

/-- A sink named "B" at index 1 with an active port. -/
def sinkB : PulseSink := ⟨"B", "Sink B", 1, 0, true, 2, [(1 : Rat), 1], some ⟨"yes"⟩⟩

/-- Two sinks, "A" default, two streams (indexes 10 and 11) on sink 0. -/
def demoState : PulseState := ⟨[], [sinkA, sinkB], [⟨10, 0⟩, ⟨11, 0⟩], "A"⟩

/-- Oracle where only the move of stream 10 is rejected. -/
def moveFaults : Faults := ⟨false, false, false, false, false, fun n => n == 10, false, false⟩

/-- Oracle where only `sink_default_set` is rejected. -/
def defaultSetFaults : Faults := ⟨false, false, false, true, false, fun _ => false, false, false⟩

/-- Oracle where `get_sink_by_name` raises a connection fault. -/
def resolveFaults : Faults := ⟨false, false, true, false, false, fun _ => false, false, false⟩

/-- An available output profile exposing two sinks. -/
def pOut : Profile := ⟨"output:hdmi-stereo", "HDMI", true, 2⟩

/-- An unavailable output profile. -/
def pUnavail : Profile := ⟨"output:spdif", "SPDIF", false, 1⟩

/-- An available output profile exposing no sinks. -/
def pZero : Profile := ⟨"output:off", "No sinks", true, 0⟩

/-- An available non-output (input) profile. -/
def pIn : Profile := ⟨"input:mic", "Microphone", true, 1⟩

/-- A card with a device description and one profile of each kind. -/
def demoCard : Card :=
  ⟨"card0", [("device.description", "HDA Intel")], [pOut, pUnavail, pZero, pIn], pOut⟩

/-- A card whose property list lacks "device.description". -/
def bareCard : Card := ⟨"card1", [], [pOut], pOut⟩

/-- State holding only `demoCard`. -/
def cardState : PulseState := ⟨[demoCard], [], [], "A"⟩

/-- State holding only `bareCard`. -/
def bareState : PulseState := ⟨[bareCard], [], [], "A"⟩

/-- State with no cards and no sinks. -/
def emptyState : PulseState := ⟨[], [], [], "A"⟩

/-! ### Helper lemmas -/

theorem collectProfiles_eq_filter_map (l : List Profile) :
    collectProfiles l =
      (l.filter profileSelected).map (fun p => (p.name, p.description)) := by
  induction l with
  | nil => rfl
  | cons p ps ih =>
    by_cases h : profileSelected p = true
    · simp [collectProfiles, List.filter_cons, h, ih]
    · simp [collectProfiles, List.filter_cons, h, ih]

/-- Pure view of the state evolution of the move loop: each enumerated
stream in turn has its index's sink-inputs redirected to `target`. -/
def applyMoves (streams : List Stream) (l : List Stream) (target : Nat) : List Stream :=
  l.foldl
    (fun acc t =>
      acc.map (fun u => if u.index == t.index then ⟨u.index, target⟩ else u))
    streams

theorem moveStreams_ok (f : Faults) (target : Nat) :
    ∀ (l : List Stream) (st : PulseState) (tr : List Cmd),
      (∀ t ∈ l, f.move_fault t.index = false) →
      moveStreams f target st l tr =
        .ok (⟨st.cards, st.sinks, applyMoves st.sink_inputs l target,
              st.default_sink_name⟩,
          tr ++ l.map (fun t => Cmd.move t.index target)) := by
  intro l
  induction l with
  | nil => intro st tr _; simp [moveStreams, applyMoves]
  | cons t rest ih =>
    intro st tr h
    have ht : f.move_fault t.index = false := h t (List.mem_cons_self t rest)
    have hrest : ∀ u ∈ rest, f.move_fault u.index = false :=
      fun u hu => h u (List.mem_cons_of_mem t hu)
    have hcond : ¬ (f.move_fault t.index = true) := by simp [ht]
    simp only [moveStreams]
    rw [if_neg hcond, ih _ _ hrest]
    simp [sink_input_move, applyMoves]

theorem moveStreams_fail_split (f : Faults) (target : Nat) :
    ∀ (pre : List Stream) (st : PulseState) (t : Stream) (post : List Stream)
      (tr : List Cmd),
      (∀ u ∈ pre, f.move_fault u.index = false) →
      f.move_fault t.index = true →
      moveStreams f target st (pre ++ t :: post) tr =
        .error (.opFailed,
          ⟨st.cards, st.sinks, applyMoves st.sink_inputs pre target,
            st.default_sink_name⟩,
          tr ++ pre.map (fun u => Cmd.move u.index target) ++
            [Cmd.move t.index target]) := by
  intro pre
  induction pre with
  | nil =>
    intro st t post tr _ ht
    simp [moveStreams, ht, applyMoves]
  | cons u rest ih =>
    intro st t post tr h ht
    have hu : f.move_fault u.index = false := h u (List.mem_cons_self u rest)
    have hrest : ∀ v ∈ rest, f.move_fault v.index = false :=
      fun v hv => h v (List.mem_cons_of_mem u hv)
    have hcond : ¬ (f.move_fault u.index = true) := by simp [hu]
    simp only [List.cons_append, moveStreams]
    rw [if_neg hcond]
    simp only [List.append_eq]
    rw [ih _ _ _ _ hrest ht]
    simp [sink_input_move, applyMoves]

theorem moveStreams_isOk_false_of_fault (f : Faults) (target : Nat) :
    ∀ (l : List Stream) (st : PulseState) (tr : List Cmd),
      (∃ t ∈ l, f.move_fault t.index = true) →
      (moveStreams f target st l tr).isOk = false := by
  intro l
  induction l with
  | nil => intro st tr h; simp at h
  | cons t rest ih =>
    intro st tr h
    by_cases ht : f.move_fault t.index = true
    · simp only [moveStreams]
      rw [if_pos ht]
      rfl
    · obtain ⟨u, hu, hfu⟩ := h
      rcases List.mem_cons.mp hu with rfl | hu
      · exact absurd hfu ht
      · simp only [moveStreams]
        rw [if_neg ht]
        exact ih _ _ ⟨u, hu, hfu⟩

theorem applyMoves_index_map (target : Nat) :
    ∀ (l streams : List Stream),
      (applyMoves streams l target).map Stream.index = streams.map Stream.index := by
  intro l
  induction l with
  | nil => intro streams; rfl
  | cons t rest ih =>
    intro streams
    rw [show applyMoves streams (t :: rest) target =
        applyMoves (streams.map (fun u =>
          if u.index == t.index then (⟨u.index, target⟩ : Stream) else u))
          rest target from rfl]
    rw [ih, List.map_map]
    apply List.map_congr_left
    intro u _
    by_cases h : u.index = t.index
    · simp [Function.comp, h]
    · simp [Function.comp, h]

theorem applyMoves_all_target (target : Nat) :
    ∀ (l streams : List Stream),
      (∀ u ∈ streams, u.index ∈ l.map Stream.index ∨ u.sink = target) →
      ∀ u ∈ applyMoves streams l target, u.sink = target := by
  intro l
  induction l with
  | nil =>
    intro streams h u hu
    rcases h u hu with h0 | h0
    · simp at h0
    · exact h0
  | cons t rest ih =>
    intro streams h u hu
    simp only [applyMoves, List.foldl_cons] at hu
    refine ih _ ?_ u hu
    intro v hv
    obtain ⟨w, hw, rfl⟩ := List.mem_map.mp hv
    by_cases hwi : w.index == t.index
    · simp [hwi]
    · simp only [hwi, if_neg Bool.false_ne_true]
      rcases h w hw with h0 | h0
      · simp only [List.map_cons, List.mem_cons] at h0
        rcases h0 with h0 | h0
        · exact absurd (by simp [h0]) hwi
        · exact Or.inl h0
      · exact Or.inr h0

/-! ### Claim theorems -/

/-- C3: when the sink resolves but the set-default command fails,
`set_default_sink` returns false, issues no stream-move command, and the
server state (in particular its default-sink name) is unchanged. -/
theorem set_default_sink_default_set_failure (f : Faults) (st : PulseState)
    (sink_name : String) (s : PulseSink)
    (h1 : f.get_sink_fault = false)
    (h2 : findSink st.sinks sink_name = some s)
    (h3 : f.default_set_fault = true) :
    set_default_sink f st sink_name = .ok (st, false, [Cmd.setDefault s.name]) ∧
    ([Cmd.setDefault s.name]).countP Cmd.isMove = 0 := by
  constructor
  · simp [set_default_sink, h1, h2, h3]
  · rfl

/-- Witness for C3 at a concrete server state: two sinks, the default-set
command rejected. -/
theorem set_default_sink_default_set_failure_witness :
    set_default_sink defaultSetFaults demoState "B" =
      .ok (demoState, false, [Cmd.setDefault "B"]) ∧
    ([Cmd.setDefault "B"]).countP Cmd.isMove = 0 :=
  set_default_sink_default_set_failure defaultSetFaults demoState "B" sinkB
    rfl rfl rfl

/-- C4: when `sink_name` matches no existing sink, `set_default_sink`
returns false, issues no mutating command (empty trace), and leaves the
state (hence the default-sink name) unchanged. -/
theorem set_default_sink_unresolvable (f : Faults) (st : PulseState)
    (sink_name : String)
    (h1 : f.get_sink_fault = false)
    (h2 : findSink st.sinks sink_name = none) :
    set_default_sink f st sink_name = .ok (st, false, []) := by
  simp [set_default_sink, h1, h2]

/-- Witness for C4: a sink name "C" absent from the server. -/
theorem set_default_sink_unresolvable_witness :
    set_default_sink noFaults demoState "C" = .ok (demoState, false, []) :=
  set_default_sink_unresolvable noFaults demoState "C" rfl rfl

/-- C5: when the sink resolves and every command succeeds,
`set_default_sink` returns true, the default-sink name becomes `sink_name`,
every stream enumerated at migration start now targets the resolved sink
(indexes preserved), and the moves are issued in enumeration order. -/
theorem set_default_sink_success (f : Faults) (st : PulseState)
    (sink_name : String) (s : PulseSink)
    (h1 : f.get_sink_fault = false)
    (h2 : findSink st.sinks sink_name = some s)
    (h3 : f.default_set_fault = false)
    (h4 : f.input_list_fault = false)
    (h5 : ∀ t ∈ st.sink_inputs, f.move_fault t.index = false) :
    ∃ st2, set_default_sink f st sink_name =
        .ok (st2, true,
          Cmd.setDefault s.name ::
            st.sink_inputs.map (fun t => Cmd.move t.index s.index)) ∧
      st2.default_sink_name = sink_name ∧
      (∀ u ∈ st2.sink_inputs, u.sink = s.index) ∧
      st2.sink_inputs.map Stream.index = st.sink_inputs.map Stream.index := by
  have hname : s.name = sink_name := by
    have hb := List.find?_some h2
    exact eq_of_beq hb
  have hmv := moveStreams_ok f s.index st.sink_inputs
    ⟨st.cards, st.sinks, st.sink_inputs, s.name⟩ [Cmd.setDefault s.name] h5
  refine ⟨⟨st.cards, st.sinks, applyMoves st.sink_inputs st.sink_inputs s.index,
      s.name⟩, ?_, hname, ?_, ?_⟩
  · simp [set_default_sink, h1, h2, h3, h4, hmv]
  · apply applyMoves_all_target
    intro u hu
    exact Or.inl (List.mem_map_of_mem Stream.index hu)
  · exact applyMoves_index_map s.index st.sink_inputs st.sink_inputs

/-- Witness for C5: two streams on sink "A", switching the default to "B";
both moves are issued in order and both streams end on sink index 1. -/
theorem set_default_sink_success_witness :
    ∃ st2, set_default_sink noFaults demoState "B" =
        .ok (st2, true, [Cmd.setDefault "B", Cmd.move 10 1, Cmd.move 11 1]) ∧
      st2.default_sink_name = "B" ∧
      (∀ u ∈ st2.sink_inputs, u.sink = 1) ∧
      st2.sink_inputs.map Stream.index = [10, 11] :=
  set_default_sink_success noFaults demoState "B" sinkB rfl rfl rfl rfl
    (by decide)

/-- C10: every exception of sink resolution (lookup miss or connection
fault) or of the default-set command is caught and becomes a `false`
return; an exception of the stream enumeration or of an individual
stream move propagates out of the call (the result is an error, never a
return value). -/
theorem set_default_sink_exception_policy (f : Faults) (st : PulseState)
    (sink_name : String) :
    (f.get_sink_fault = true →
      set_default_sink f st sink_name = .ok (st, false, [])) ∧
    (f.get_sink_fault = false → findSink st.sinks sink_name = none →
      set_default_sink f st sink_name = .ok (st, false, [])) ∧
    (∀ s, f.get_sink_fault = false → findSink st.sinks sink_name = some s →
      f.default_set_fault = true →
      set_default_sink f st sink_name = .ok (st, false, [Cmd.setDefault s.name])) ∧
    (∀ s, f.get_sink_fault = false → findSink st.sinks sink_name = some s →
      f.default_set_fault = false → f.input_list_fault = true →
      (set_default_sink f st sink_name).isOk = false) ∧
    (∀ s, f.get_sink_fault = false → findSink st.sinks sink_name = some s →
      f.default_set_fault = false → f.input_list_fault = false →
      (∃ t ∈ st.sink_inputs, f.move_fault t.index = true) →
      (set_default_sink f st sink_name).isOk = false) := by
  refine ⟨?_, ?_, ?_, ?_, ?_⟩
  · intro h; simp [set_default_sink, h]
  · intro h1 h2; simp [set_default_sink, h1, h2]
  · intro s h1 h2 h3; simp [set_default_sink, h1, h2, h3]
  · intro s h1 h2 h3 h4
    simp [set_default_sink, h1, h2, h3, h4, Except.isOk, Except.toBool]
  · intro s h1 h2 h3 h4 hex
    have hko := moveStreams_isOk_false_of_fault f s.index st.sink_inputs
      ⟨st.cards, st.sinks, st.sink_inputs, s.name⟩ [Cmd.setDefault s.name] hex
    obtain ⟨e, he⟩ : ∃ e, moveStreams f s.index
        ⟨st.cards, st.sinks, st.sink_inputs, s.name⟩ st.sink_inputs
        [Cmd.setDefault s.name] = .error e := by
      cases hm : moveStreams f s.index
          ⟨st.cards, st.sinks, st.sink_inputs, s.name⟩ st.sink_inputs
          [Cmd.setDefault s.name] with
      | error e => exact ⟨e, rfl⟩
      | ok v => rw [hm] at hko; simp [Except.isOk, Except.toBool] at hko
    simp [set_default_sink, h1, h2, h3, h4, he, Except.isOk, Except.toBool]

/-- Witness for C10: a connection fault during resolution is swallowed
into a `false` return, while a rejected stream move makes the call fail
with an exception. -/
theorem set_default_sink_exception_policy_witness :
    set_default_sink resolveFaults demoState "B" = .ok (demoState, false, []) ∧
    (set_default_sink moveFaults demoState "B").isOk = false :=
  ⟨(set_default_sink_exception_policy resolveFaults demoState "B").1 rfl,
   (set_default_sink_exception_policy moveFaults demoState "B").2.2.2.2 sinkB
     rfl rfl rfl rfl (by decide)⟩

/-- C1 counterexample: with two streams (indexes 10 and 11) and the move of
stream 10 rejected, `set_default_sink` raises instead of returning true, and
the move of stream 11 is never issued: per-stream failures are NOT
best-effort in the code. -/
theorem set_default_sink_move_failure_cex :
    set_default_sink moveFaults demoState "B" =
      .error (.opFailed, ⟨[], [sinkA, sinkB], [⟨10, 0⟩, ⟨11, 0⟩], "B"⟩,
        [Cmd.setDefault "B", Cmd.move 10 1]) ∧
    (set_default_sink moveFaults demoState "B").isOk = false ∧
    Cmd.move 11 1 ∉ [Cmd.setDefault "B", Cmd.move 10 1] :=
  ⟨rfl, rfl, by decide⟩

/-- C1 amended: a failure of an individual stream-move command ABORTS the
remaining stream moves and propagates as an exception; the commands issued
are exactly the default-set, the moves of the streams before the failing
one (in enumeration order), and the failing move itself. -/
theorem set_default_sink_move_failure_aborts (f : Faults) (st : PulseState)
    (sink_name : String) (s : PulseSink) (pre : List Stream) (t : Stream)
    (post : List Stream)
    (h1 : f.get_sink_fault = false)
    (h2 : findSink st.sinks sink_name = some s)
    (h3 : f.default_set_fault = false)
    (h4 : f.input_list_fault = false)
    (h5 : st.sink_inputs = pre ++ t :: post)
    (h6 : ∀ u ∈ pre, f.move_fault u.index = false)
    (h7 : f.move_fault t.index = true) :
    ∃ st2, set_default_sink f st sink_name =
      .error (.opFailed, st2,
        Cmd.setDefault s.name ::
          (pre.map (fun u => Cmd.move u.index s.index) ++
            [Cmd.move t.index s.index])) := by
  have hmv := moveStreams_fail_split f s.index pre
    ⟨st.cards, st.sinks, st.sink_inputs, s.name⟩ t post [Cmd.setDefault s.name]
    h6 h7
  refine ⟨⟨st.cards, st.sinks, applyMoves st.sink_inputs pre s.index, s.name⟩, ?_⟩
  simp only [set_default_sink]
  rw [if_neg (by simp [h1]), h2]
  simp only
  rw [if_neg (by simp [h3]), if_neg (by simp [h4])]
  have hst : (⟨st.cards, st.sinks, st.sink_inputs, s.name⟩ : PulseState).sink_inputs
      = pre ++ t :: post := h5
  rw [hst] at hmv ⊢
  rw [hmv]
  simp

/-- Witness for the amended C1 at the concrete two-stream state: the first
move fails, the call raises with only the default-set and the failing move
issued. -/
theorem set_default_sink_move_failure_aborts_witness :
    ∃ st2, set_default_sink moveFaults demoState "B" =
      .error (.opFailed, st2, [Cmd.setDefault "B", Cmd.move 10 1]) :=
  set_default_sink_move_failure_aborts moveFaults demoState "B" sinkB []
    ⟨10, 0⟩ [⟨11, 0⟩] rfl rfl rfl rfl rfl (by decide) rfl

/-- C2 counterexample: with no card matching the name, `set_profile` raises
an exception out of the method (an `Except.error`, never a `false` return):
the NotFound case is not converted into a boolean. -/
theorem set_profile_notfound_cex :
    set_profile noFaults emptyState "nonexistent-card" "p" =
      .error (.notFound, []) ∧
    (set_profile noFaults emptyState "nonexistent-card" "p").isOk = false :=
  ⟨rfl, rfl⟩

/-- C2 amended: when the card does not resolve or the profile is absent
from the card's profile list, `set_profile` raises a NotFound exception to
the transport layer (it does not return false), and the profile-set
primitive is not contacted (empty command trace). -/
theorem set_profile_notfound_raises (f : Faults) (st : PulseState)
    (card_name : String) (profile_name : String)
    (hf : f.get_card_fault = false)
    (h : findCard st.cards card_name = none ∨
      ∃ c, findCard st.cards card_name = some c ∧
        findProfile c.profile_list profile_name = none) :
    set_profile f st card_name profile_name = .error (.notFound, []) := by
  rcases h with h | ⟨c, hc, hp⟩
  · simp [set_profile, hf, h]
  · simp [set_profile, hf, hc, hp]

/-- Witness for the amended C2: a resolvable card but an absent profile
name; the call raises NotFound with no command issued. -/
theorem set_profile_notfound_raises_witness :
    set_profile noFaults cardState "card0" "nope" = .error (.notFound, []) :=
  set_profile_notfound_raises noFaults cardState "card0" "nope" rfl
    (Or.inr ⟨demoCard, rfl, rfl⟩)

theorem buildCardEntries_ok (cards : List Card)
    (h : ∀ c ∈ cards, (lookupProp c.proplist "device.description").isSome = true) :
    ∃ res, buildCardEntries cards = .ok res ∧ res.length = cards.length ∧
      ∀ i (hc : i < cards.length) (hr : i < res.length),
        (res.get ⟨i, hr⟩).card_name = (cards.get ⟨i, hc⟩).name ∧
        (res.get ⟨i, hr⟩).profiles =
          collectProfiles (cards.get ⟨i, hc⟩).profile_list ∧
        (res.get ⟨i, hr⟩).active_profile_name =
          (cards.get ⟨i, hc⟩).profile_active.name := by
  induction cards with
  | nil => exact ⟨[], rfl, rfl, fun i hc => absurd hc (by simp)⟩
  | cons c cs ih =>
    have hc0 := h c (List.mem_cons_self c cs)
    obtain ⟨d, hd⟩ : ∃ d, lookupProp c.proplist "device.description" = some d := by
      cases hld : lookupProp c.proplist "device.description" with
      | none => rw [hld] at hc0; simp at hc0
      | some d => exact ⟨d, rfl⟩
    obtain ⟨res, hres, hlen, hget⟩ :=
      ih (fun u hu => h u (List.mem_cons_of_mem c hu))
    refine ⟨⟨c.name, d, collectProfiles c.profile_list, c.profile_active.name⟩ :: res,
      ?_, by simp [hlen], ?_⟩
    · simp [buildCardEntries, hd, hres]
    · intro i hci hri
      cases i with
      | zero => exact ⟨rfl, rfl, rfl⟩
      | succ n =>
        exact hget n (Nat.lt_of_succ_lt_succ hci) (Nat.lt_of_succ_lt_succ hri)

/-- C6: for every card, the profiles component of its entry in
`list_output_profiles` is exactly the server-ordered sublist of profiles
that are available, expose at least one sink, and have an "output:"-prefixed
name; no unavailable, zero-sink or non-output profile ever appears. -/
theorem list_output_profiles_filter (f : Faults) (st : PulseState)
    (h1 : f.card_list_fault = false)
    (h2 : ∀ c ∈ st.cards, (lookupProp c.proplist "device.description").isSome = true) :
    ∃ res, list_output_profiles f st = .ok res ∧
      res.length = st.cards.length ∧
      ∀ i (hc : i < st.cards.length) (hr : i < res.length),
        (res.get ⟨i, hr⟩).profiles =
          ((st.cards.get ⟨i, hc⟩).profile_list.filter profileSelected).map
            (fun p => (p.name, p.description)) ∧
        ∀ pr ∈ (res.get ⟨i, hr⟩).profiles,
          ∃ p ∈ (st.cards.get ⟨i, hc⟩).profile_list,
            p.available = true ∧ 0 < p.n_sinks ∧
            strStartsWith p.name "output:" = true ∧
            pr = (p.name, p.description) := by
  obtain ⟨res, hres, hlen, hget⟩ := buildCardEntries_ok st.cards h2
  refine ⟨res, by simp [list_output_profiles, h1, hres], hlen, ?_⟩
  intro i hc hr
  have hprof := (hget i hc hr).2.1
  constructor
  · rw [hprof, collectProfiles_eq_filter_map]
  · intro pr hpr
    rw [hprof, collectProfiles_eq_filter_map] at hpr
    obtain ⟨p, hpmem, rfl⟩ := List.mem_map.mp hpr
    have hpf := List.mem_filter.mp hpmem
    have hsel : p.available = true ∧ decide (0 < p.n_sinks) = true ∧
        strStartsWith p.name "output:" = true := by
      simpa [profileSelected, Bool.and_assoc, Bool.and_eq_true] using hpf.2
    exact ⟨p, hpf.1, hsel.1, by simpa using hsel.2.1, hsel.2.2, rfl⟩

/-- Witness for C6 at a card holding one profile of each kind: only the
available, sink-exposing, "output:"-named profile is listed. -/
theorem list_output_profiles_filter_witness :
    ∃ res, list_output_profiles noFaults cardState = .ok res ∧
      res.length = cardState.cards.length ∧
      ∀ i (hc : i < cardState.cards.length) (hr : i < res.length),
        (res.get ⟨i, hr⟩).profiles =
          ((cardState.cards.get ⟨i, hc⟩).profile_list.filter profileSelected).map
            (fun p => (p.name, p.description)) ∧
        ∀ pr ∈ (res.get ⟨i, hr⟩).profiles,
          ∃ p ∈ (cardState.cards.get ⟨i, hc⟩).profile_list,
            p.available = true ∧ 0 < p.n_sinks ∧
            strStartsWith p.name "output:" = true ∧
            pr = (p.name, p.description) :=
  list_output_profiles_filter noFaults cardState rfl (by decide)

/-- C7: in a `list_sinks` snapshot taken over at least one sink, with
unique sink names and the server default naming one of them, exactly one
returned record has `is_default_sink = true`, and any record flagged
default carries the returned default-sink name. -/
theorem list_sinks_default_unique (f : Faults) (st : PulseState)
    (h0 : f.sinks_query_fault = false)
    (h1 : st.sinks ≠ [])
    (h2 : (st.sinks.map PulseSink.name).Nodup)
    (h3 : st.default_sink_name ∈ st.sinks.map PulseSink.name) :
    ∃ recs, list_sinks f st = .ok (recs, st.default_sink_name) ∧
      recs.countP Sink.is_default_sink = 1 ∧
      ∀ r ∈ recs, r.is_default_sink = true → r.name = st.default_sink_name := by
  refine ⟨st.sinks.map (mkSinkRecord st.default_sink_name),
    by simp [list_sinks, h0], ?_, ?_⟩
  · have hc : (st.sinks.map (mkSinkRecord st.default_sink_name)).countP
        Sink.is_default_sink =
        (st.sinks.map PulseSink.name).countP (fun x => x == st.default_sink_name) := by
      rw [List.countP_map, List.countP_map]
      rfl
    rw [hc]
    have hcnt := List.count_eq_one_of_mem h2 h3
    rwa [List.count_eq_countP] at hcnt
  · intro r hr hflag
    obtain ⟨s, hs, rfl⟩ := List.mem_map.mp hr
    have hb : (s.name == st.default_sink_name) = true := hflag
    exact eq_of_beq hb

/-- Witness for C7 at the two-sink state with default "A". -/
theorem list_sinks_default_unique_witness :
    ∃ recs, list_sinks noFaults demoState = .ok (recs, demoState.default_sink_name) ∧
      recs.countP Sink.is_default_sink = 1 ∧
      ∀ r ∈ recs, r.is_default_sink = true → r.name = demoState.default_sink_name :=
  list_sinks_default_unique noFaults demoState rfl (by decide) (by decide)
    (by decide)

/-- C8: once the card resolves, the profile is resolved against the card's
FULL profile list (any declared profile with the requested name is found,
independent of the output filter); the call returns true exactly when the
profile-set command completes, and a connection-level error of that command
propagates out as an exception carrying the attempted command. -/
theorem set_profile_full_list (f : Faults) (st : PulseState)
    (card_name : String) (profile_name : String) (c : Card)
    (h0 : f.get_card_fault = false)
    (hc : findCard st.cards card_name = some c) :
    (∀ p ∈ c.profile_list, p.name = profile_name →
      ∃ q, findProfile c.profile_list profile_name = some q ∧
        q.name = profile_name) ∧
    ∀ q, findProfile c.profile_list profile_name = some q →
      (f.profile_set_fault = false →
        set_profile f st card_name profile_name =
          .ok (setActiveProfile st c.name q, true,
            [Cmd.profileSet c.name q.name])) ∧
      (f.profile_set_fault = true →
        set_profile f st card_name profile_name =
          .error (.connFault, [Cmd.profileSet c.name q.name])) := by
  constructor
  · intro p hp hpn
    have hfs : (c.profile_list.find? (fun u => u.name == profile_name)).isSome := by
      rw [List.find?_isSome]
      exact ⟨p, hp, by simp [hpn]⟩
    obtain ⟨q, hq⟩ : ∃ q, c.profile_list.find?
        (fun u => u.name == profile_name) = some q := by
      cases hq : c.profile_list.find? (fun u => u.name == profile_name) with
      | none => rw [hq] at hfs; simp at hfs
      | some q => exact ⟨q, rfl⟩
    have hb := List.find?_some hq
    exact ⟨q, hq, by simpa using hb⟩
  · intro q hq
    have hq' : c.profile_list.find? (fun u => u.name == profile_name) = some q := hq
    constructor
    · intro hps; simp [set_profile, h0, hc, findProfile, hq', hps]
    · intro hps; simp [set_profile, h0, hc, findProfile, hq', hps]

/-- Witness for C8: selecting the non-output profile "input:mic" of the
demo card succeeds and issues exactly the profile-set command. -/
theorem set_profile_full_list_witness :
    (∀ p ∈ demoCard.profile_list, p.name = "input:mic" →
      ∃ q, findProfile demoCard.profile_list "input:mic" = some q ∧
        q.name = "input:mic") ∧
    ∀ q, findProfile demoCard.profile_list "input:mic" = some q →
      (noFaults.profile_set_fault = false →
        set_profile noFaults cardState "card0" "input:mic" =
          .ok (setActiveProfile cardState demoCard.name q, true,
            [Cmd.profileSet demoCard.name q.name])) ∧
      (noFaults.profile_set_fault = true →
        set_profile noFaults cardState "card0" "input:mic" =
          .error (.connFault, [Cmd.profileSet demoCard.name q.name])) :=
  set_profile_full_list noFaults cardState "card0" "input:mic" demoCard rfl rfl

/-- C9 counterexample: a card whose property list lacks
"device.description" makes `list_output_profiles` fail with a key-lookup
error, which is a failure mode distinct from a connection error. -/
theorem list_output_profiles_keyerror_cex :
    list_output_profiles noFaults bareState = .error .keyError ∧
    PulseErr.keyError ≠ PulseErr.connFault :=
  ⟨rfl, by decide⟩

/-- C9 amended: `list_output_profiles` either returns the full listing,
fails with a connection error when the card query faults, or fails with a
key-lookup error precisely because some card's property list lacks
"device.description"; it never returns a partial result. -/
theorem list_output_profiles_failure_modes (f : Faults) (st : PulseState) :
    (f.card_list_fault = true →
      list_output_profiles f st = .error .connFault) ∧
    (f.card_list_fault = false →
      ((∀ c ∈ st.cards, (lookupProp c.proplist "device.description").isSome = true) →
        (list_output_profiles f st).isOk = true) ∧
      ((∃ c ∈ st.cards, lookupProp c.proplist "device.description" = none) →
        list_output_profiles f st = .error .keyError)) := by
  constructor
  · intro h; simp [list_output_profiles, h]
  · intro h
    constructor
    · intro hall
      obtain ⟨res, hres, -, -⟩ := buildCardEntries_ok st.cards hall
      simp [list_output_profiles, h, hres, Except.isOk, Except.toBool]
    · intro hex
      have hkey : ∀ cs : List Card,
          (∃ c ∈ cs, lookupProp c.proplist "device.description" = none) →
          buildCardEntries cs = .error .keyError := by
        intro cs
        induction cs with
        | nil => intro hx; simp at hx
        | cons c rest ih =>
          intro hx
          cases hld : lookupProp c.proplist "device.description" with
          | none => simp [buildCardEntries, hld]
          | some d =>
            obtain ⟨u, hu, hun⟩ := hx
            rcases List.mem_cons.mp hu with rfl | hu
            · rw [hld] at hun; exact absurd hun (by simp)
            · simp [buildCardEntries, hld, ih ⟨u, hu, hun⟩]
      simp [list_output_profiles, h, hkey st.cards hex]

/-- Witness for the amended C9: the bare card (no device description) makes
the whole call fail with the key-lookup error. -/
theorem list_output_profiles_failure_modes_witness :
    list_output_profiles noFaults bareState = .error .keyError :=
  ((list_output_profiles_failure_modes noFaults bareState).2 rfl).2
    ⟨bareCard, by decide, rfl⟩

end YavdrPulse
